import Mathlib

/-!
Shallow embedding of the `lis3dh-driver` Rust crate (an LIS3DH accelerometer
driver) and proofs of the specification claims about it.

Modelling conventions:
* Rust `u8` values are modelled as `Nat` (all register bytes stay below 256 by
  construction; where overflow could matter we state bounds explicitly).
* Rust `i16` values are modelled as `Int` together with explicit two's
  complement conversion from the byte pair, mirroring `i16::from_le_bytes`,
  and arithmetic shift right is modelled as flooring division by a power of
  two (the semantics of `>>` on a signed integer in Rust).
* Rust type-states (marker types implementing a per-field `State` trait with
  an associated `VARIANT` constant) are modelled as inductive enumerations.
  For every field except `odr` the map from type-state to variant is a
  bijection, so a single enumeration with a `raw` function models both
  layers; for `odr` the source has eleven type-states mapping onto ten
  variants (`F5376Hz` is an extra state whose `VARIANT` is the `F1344Hz`
  variant), so both layers are modelled separately.
* The `Entitled` trait impls are modelled as Boolean relations; the
  `Config` struct's trait bounds become proof fields of the `Config`
  structure.
* The `unreachable!()` arm in the `Resolution` const is modelled as `none`
  in an `Option`-valued function.
* `f32` constants are modelled as exact rationals given by the source's
  decimal literals.
* The async bus is modelled by a transport oracle (`BusModel`) returning
  `Except`; each driver operation is a function from the oracle to the list
  of bus operations it issues (its trace) together with its result.
-/

namespace Lis3dhDriver

/-- Register addresses of the writable registers, from
`registers.rs::ReadWriteRegisterAddress` (discriminants are the hardware
addresses). -/
inductive ReadWriteRegisterAddress
  | CtrlReg0
  | TempCfgReg
  | CtrlReg1
  | CtrlReg2
  | CtrlReg3
  | CtrlReg4
  | CtrlReg5
  | CtrlReg6
  | FifoCtrlReg
  | Int1Cfg
  | Int1Ths
  | Int1Duration
  | Int2Cfg
  | Int2Ths
  | Int2Duration
  | ClickCfg
  | ClickThs
  | TimeLimit
  | TimeLatency
  | TimeWindow
  | ActThs
  | ActDur
  deriving DecidableEq, Fintype

/-- The numeric value of a read-write register address (the Rust enum
discriminant, i.e. the value of `addr as u8`). -/
def ReadWriteRegisterAddress.toByte : ReadWriteRegisterAddress → Nat
  | .CtrlReg0 => 0x1E
  | .TempCfgReg => 0x1F
  | .CtrlReg1 => 0x20
  | .CtrlReg2 => 0x21
  | .CtrlReg3 => 0x22
  | .CtrlReg4 => 0x23
  | .CtrlReg5 => 0x24
  | .CtrlReg6 => 0x25
  | .FifoCtrlReg => 0x2E
  | .Int1Cfg => 0x30
  | .Int1Ths => 0x32
  | .Int1Duration => 0x33
  | .Int2Cfg => 0x34
  | .Int2Ths => 0x36
  | .Int2Duration => 0x37
  | .ClickCfg => 0x38
  | .ClickThs => 0x3A
  | .TimeLimit => 0x3B
  | .TimeLatency => 0x3C
  | .TimeWindow => 0x3D
  | .ActThs => 0x3E
  | .ActDur => 0x3F

/-- Register addresses of the read-only registers, from
`registers.rs::ReadOnlyRegisterAddress`. -/
inductive ReadOnlyRegisterAddress
  | StatusRegAux
  | OutAdc1L
  | OutAdc1H
  | OutAdc2L
  | OutAdc2H
  | OutAdc3L
  | OutAdc3H
  | WhoAmI
  | Reference
  | StatusReg
  | OutXL
  | OutXH
  | OutYL
  | OutYH
  | OutZL
  | OutZH
  | FifoSrcReg
  | Int1Src
  | Int2Src
  | ClickSrc
  deriving DecidableEq, Fintype

/-- The numeric value of a read-only register address. -/
def ReadOnlyRegisterAddress.toByte : ReadOnlyRegisterAddress → Nat
  | .StatusRegAux => 0x07
  | .OutAdc1L => 0x08
  | .OutAdc1H => 0x09
  | .OutAdc2L => 0x0A
  | .OutAdc2H => 0x0B
  | .OutAdc3L => 0x0C
  | .OutAdc3H => 0x0D
  | .WhoAmI => 0x0F
  | .Reference => 0x26
  | .StatusReg => 0x27
  | .OutXL => 0x28
  | .OutXH => 0x29
  | .OutYL => 0x2A
  | .OutYH => 0x2B
  | .OutZL => 0x2C
  | .OutZH => 0x2D
  | .FifoSrcReg => 0x2F
  | .Int1Src => 0x31
  | .Int2Src => 0x35
  | .ClickSrc => 0x39

/-- Source `registers.rs::RegisterAddress`: either a read-only or read-write
register address. -/
inductive RegisterAddress
  | ReadOnly (r : ReadOnlyRegisterAddress)
  | ReadWrite (r : ReadWriteRegisterAddress)
  deriving DecidableEq, Fintype

/-- Source `RegisterAddress::byte_address`: the underlying numeric address. -/
def RegisterAddress.byte_address : RegisterAddress → Nat
  | .ReadOnly r => r.toByte
  | .ReadWrite r => r.toByte

-- ---------------------------------------------------------------------------
-- CTRL_REG1 (0x20) bit fields, from `registers/ctrl_reg1.rs`.
-- ---------------------------------------------------------------------------

namespace ctrl_reg1

namespace odr

/-- Source `ctrl_reg1::odr::Variant` (raw values are the enum discriminants).
The associated constant `Variant::F5376HZ` is an alias for `F1344Hz`. -/
inductive Variant
  | PowerDown
  | F1Hz
  | F10Hz
  | F25Hz
  | F50Hz
  | F100Hz
  | F200Hz
  | F400Hz
  | F1600Hz
  | F1344Hz
  deriving DecidableEq, Fintype

/-- Raw bit-field value of an `odr` variant (`Variant as u8`). -/
def Variant.raw : Variant → Nat
  | .PowerDown => 0b0000
  | .F1Hz => 0b0001
  | .F10Hz => 0b0010
  | .F25Hz => 0b0011
  | .F50Hz => 0b0100
  | .F100Hz => 0b0101
  | .F200Hz => 0b0110
  | .F400Hz => 0b0111
  | .F1600Hz => 0b1000
  | .F1344Hz => 0b1001

/-- The alias constant `odr::Variant::F5376HZ`, defined in the source as
`Variant::F1344Hz` (the raw value 0b1001 is overloaded). -/
def Variant.F5376HZalias : Variant := Variant.F1344Hz

/-- The eleven `odr` type-states (marker structs implementing
`odr::State`). -/
inductive State
  | PowerDown
  | F1Hz
  | F10Hz
  | F25Hz
  | F50Hz
  | F100Hz
  | F200Hz
  | F400Hz
  | F1600Hz
  | F1344Hz
  | F5376Hz
  deriving DecidableEq, Fintype

/-- The `VARIANT` constant of each `odr` type-state; `F5376Hz`'s variant is
the alias `Variant::F5376HZ = Variant::F1344Hz`. -/
def State.variant : State → Variant
  | .PowerDown => .PowerDown
  | .F1Hz => .F1Hz
  | .F10Hz => .F10Hz
  | .F25Hz => .F25Hz
  | .F50Hz => .F50Hz
  | .F100Hz => .F100Hz
  | .F200Hz => .F200Hz
  | .F400Hz => .F400Hz
  | .F1600Hz => .F1600Hz
  | .F1344Hz => .F1344Hz
  | .F5376Hz => Variant.F5376HZalias

/-- Source `odr::OFFSET`. -/
def OFFSET : Nat := 4

/-- Source `odr::WIDTH`. -/
def WIDTH : Nat := 4

end odr

namespace lp_en

/-- Source `ctrl_reg1::lp_en::Variant`; the type-states are in bijection with the
variants, so one enumeration models both. -/
inductive Variant
  | NormalPowerMode
  | LowPowerMode
  deriving DecidableEq, Fintype

/-- Raw bit value of `lp_en`. -/
def Variant.raw : Variant → Nat
  | .NormalPowerMode => 0b0
  | .LowPowerMode => 0b1

/-- Source `lp_en::OFFSET`. -/
def OFFSET : Nat := 3

/-- Source `lp_en::WIDTH`. -/
def WIDTH : Nat := 1

end lp_en

namespace axis_enable

/-- Source `ctrl_reg1::axis_enable::Variant`. -/
inductive Variant
  | XYZDisabled
  | XEnabled
  | YEnabled
  | XYEnabled
  | ZEnabled
  | XZEnabled
  | YZEnabled
  | XYZEnabled
  deriving DecidableEq, Fintype

/-- Raw bit-field value of `axis_enable`. -/
def Variant.raw : Variant → Nat
  | .XYZDisabled => 0b000
  | .XEnabled => 0b001
  | .YEnabled => 0b010
  | .XYEnabled => 0b011
  | .ZEnabled => 0b100
  | .XZEnabled => 0b101
  | .YZEnabled => 0b110
  | .XYZEnabled => 0b111

/-- Source `axis_enable::OFFSET`. -/
def OFFSET : Nat := 0

/-- Source `axis_enable::WIDTH`. -/
def WIDTH : Nat := 3

end axis_enable

/-- Source `ctrl_reg1::render_hardware_state` (generated by
`define_state_renderer!(odr, lp_en, axis_enable)`): OR together each field's
raw value shifted by its offset. -/
def render_hardware_state (o : odr.State) (l : lp_en.Variant)
    (ax : axis_enable.Variant) : Nat :=
  (o.variant.raw <<< odr.OFFSET) ||| (l.raw <<< lp_en.OFFSET) |||
    (ax.raw <<< axis_enable.OFFSET)

end ctrl_reg1

-- ---------------------------------------------------------------------------
-- CTRL_REG4 (0x23) bit fields, from `registers/ctrl_reg4.rs`.
-- ---------------------------------------------------------------------------

namespace ctrl_reg4

namespace bdu

/-- Source `ctrl_reg4::bdu::Variant`. -/
inductive Variant
  | ContinuousDataUpdate
  | BlockDataUpdate
  deriving DecidableEq, Fintype

/-- Raw bit value of `bdu`. -/
def Variant.raw : Variant → Nat
  | .ContinuousDataUpdate => 0b0
  | .BlockDataUpdate => 0b1

/-- Source `bdu::OFFSET`. -/
def OFFSET : Nat := 7

end bdu

namespace ble

/-- Source `ctrl_reg4::ble::Variant`. -/
inductive Variant
  | LittleEndian
  | BigEndian
  deriving DecidableEq, Fintype

/-- Raw bit value of `ble`. -/
def Variant.raw : Variant → Nat
  | .LittleEndian => 0b0
  | .BigEndian => 0b1

/-- Source `ble::OFFSET`. -/
def OFFSET : Nat := 6

end ble

namespace fs

/-- Source `ctrl_reg4::fs::Variant` (full-scale selection). -/
inductive Variant
  | S2G
  | S4G
  | S8G
  | S16G
  deriving DecidableEq, Fintype

/-- Raw bit-field value of `fs`. -/
def Variant.raw : Variant → Nat
  | .S2G => 0b00
  | .S4G => 0b01
  | .S8G => 0b10
  | .S16G => 0b11

/-- Source `fs::OFFSET`. -/
def OFFSET : Nat := 4

/-- Source `fs::WIDTH`. -/
def WIDTH : Nat := 2

end fs

namespace hr

/-- Source `ctrl_reg4::hr::Variant` (high-resolution output mode). -/
inductive Variant
  | NormalResolution
  | HighResolution
  deriving DecidableEq, Fintype

/-- Raw bit value of `hr`. -/
def Variant.raw : Variant → Nat
  | .NormalResolution => 0b0
  | .HighResolution => 0b1

/-- Source `hr::OFFSET`. -/
def OFFSET : Nat := 3

/-- Source `hr::WIDTH`. -/
def WIDTH : Nat := 1

end hr

namespace st

/-- Source `ctrl_reg4::st::Variant` (self-test). -/
inductive Variant
  | NormalMode
  | SelfTest0
  | SelfTest1
  deriving DecidableEq, Fintype

/-- Raw bit-field value of `st`. -/
def Variant.raw : Variant → Nat
  | .NormalMode => 0b00
  | .SelfTest0 => 0b01
  | .SelfTest1 => 0b10

/-- Source `st::OFFSET`. -/
def OFFSET : Nat := 1

end st

namespace sim

/-- Source `ctrl_reg4::sim::Variant` (SPI interface mode). -/
inductive Variant
  | Spi4Wire
  | Spi3Wire
  deriving DecidableEq, Fintype

/-- Raw bit value of `sim`. -/
def Variant.raw : Variant → Nat
  | .Spi4Wire => 0b0
  | .Spi3Wire => 0b1

/-- Source `sim::OFFSET`. -/
def OFFSET : Nat := 0

end sim

/-- Source `ctrl_reg4::render_hardware_state` (generated by
`define_state_renderer!(bdu, ble, fs, hr, st, sim)`). -/
def render_hardware_state (b : bdu.Variant) (e : ble.Variant) (f : fs.Variant)
    (h : hr.Variant) (s : st.Variant) (m : sim.Variant) : Nat :=
  (b.raw <<< bdu.OFFSET) ||| (e.raw <<< ble.OFFSET) ||| (f.raw <<< fs.OFFSET) |||
    (h.raw <<< hr.OFFSET) ||| (s.raw <<< st.OFFSET) ||| (m.raw <<< sim.OFFSET)

end ctrl_reg4

-- ---------------------------------------------------------------------------
-- CTRL_REG0 (0x1E) and TEMP_CFG_REG (0x1F), from `registers/ctrl_reg0.rs`
-- and `registers/temp_cfg_reg.rs`.
-- ---------------------------------------------------------------------------

namespace ctrl_reg0

namespace sdo_pu_disc

/-- Source `ctrl_reg0::sdo_pu_disc::Variant`. -/
inductive Variant
  | SdoPulledUp
  | SdoFloating
  deriving DecidableEq, Fintype

/-- Raw bit value of `sdo_pu_disc`. -/
def Variant.raw : Variant → Nat
  | .SdoPulledUp => 0b0
  | .SdoFloating => 0b1

/-- Source `sdo_pu_disc::OFFSET`. -/
def OFFSET : Nat := 7

end sdo_pu_disc

namespace must_set_bits

/-- Source `ctrl_reg0::must_set_bits::Variant`: the seven low bits of CTRL_REG0
must hold 0b0010000 per the datasheet. -/
inductive Variant
  | MustSet
  deriving DecidableEq, Fintype

/-- Raw bit-field value of `must_set_bits`. -/
def Variant.raw : Variant → Nat
  | .MustSet => 0b0010000

/-- Source `must_set_bits::OFFSET`. -/
def OFFSET : Nat := 0

end must_set_bits

/-- Source `ctrl_reg0::render_hardware_state` (generated by
`define_state_renderer!(sdo_pu_disc, must_set_bits)`). -/
def render_hardware_state (s : sdo_pu_disc.Variant)
    (m : must_set_bits.Variant) : Nat :=
  (s.raw <<< sdo_pu_disc.OFFSET) ||| (m.raw <<< must_set_bits.OFFSET)

end ctrl_reg0

namespace temp_cfg_reg

namespace adc_en

/-- Source `temp_cfg_reg::adc_en::Variant`. -/
inductive Variant
  | AdcDisabled
  | AdcEnabled
  deriving DecidableEq, Fintype

/-- Raw bit value of `adc_en`. -/
def Variant.raw : Variant → Nat
  | .AdcDisabled => 0b0
  | .AdcEnabled => 0b1

/-- Source `adc_en::OFFSET`. -/
def OFFSET : Nat := 7

end adc_en

namespace temp_en

/-- Source `temp_cfg_reg::temp_en::Variant`. -/
inductive Variant
  | TempDisabled
  | TempEnabled
  deriving DecidableEq, Fintype

/-- Raw bit value of `temp_en`. -/
def Variant.raw : Variant → Nat
  | .TempDisabled => 0b0
  | .TempEnabled => 0b1

/-- Source `temp_en::OFFSET`. -/
def OFFSET : Nat := 6

end temp_en

/-- Source `temp_cfg_reg::render_hardware_state` (generated by
`define_state_renderer!(adc_en, temp_en)`). -/
def render_hardware_state (a : adc_en.Variant) (t : temp_en.Variant) : Nat :=
  (a.raw <<< adc_en.OFFSET) ||| (t.raw <<< temp_en.OFFSET)

end temp_cfg_reg

-- ---------------------------------------------------------------------------
-- Entitlements (`impl Entitled<...> for ...` in the source).
-- ---------------------------------------------------------------------------

/-- The `Entitled` impls for the `odr` bit field: rates up to 400 Hz are
entitled to any power mode; `F1600Hz` and `F5376Hz` only to low-power mode;
`F1344Hz` only to normal power mode. -/
def odrEntitled : ctrl_reg1.odr.State → ctrl_reg1.lp_en.Variant → Bool
  | .PowerDown, _ => true
  | .F1Hz, _ => true
  | .F10Hz, _ => true
  | .F25Hz, _ => true
  | .F50Hz, _ => true
  | .F100Hz, _ => true
  | .F200Hz, _ => true
  | .F400Hz, _ => true
  | .F1600Hz, .LowPowerMode => true
  | .F1600Hz, .NormalPowerMode => false
  | .F1344Hz, .NormalPowerMode => true
  | .F1344Hz, .LowPowerMode => false
  | .F5376Hz, .LowPowerMode => true
  | .F5376Hz, .NormalPowerMode => false

/-- The `Entitled` impls for the `hr` bit field: `NormalResolution` is
entitled to any power mode; `HighResolution` only to normal power mode. -/
def hrEntitled : ctrl_reg4.hr.Variant → ctrl_reg1.lp_en.Variant → Bool
  | .NormalResolution, _ => true
  | .HighResolution, .NormalPowerMode => true
  | .HighResolution, .LowPowerMode => false

/-- The `Entitled` impl for the `ble` bit field: `BigEndian` is entitled to
`HighResolution` only. -/
def bleEntitled : ctrl_reg4.ble.Variant → ctrl_reg4.hr.Variant → Bool
  | .LittleEndian, _ => true
  | .BigEndian, .HighResolution => true
  | .BigEndian, .NormalResolution => false

-- ---------------------------------------------------------------------------
-- Configuration, from `config.rs`.
-- ---------------------------------------------------------------------------

/-- Source `config::Config<Odr, LpEn, AxisEnable, Fs, Hr>`: one state per field,
with the trait bounds `Odr: Entitled<LpEn>` and `Hr: Entitled<LpEn>`
modelled as proof fields. Every inhabitant corresponds to a Rust type
implementing `ValidLis3dhConfig`. -/
structure Config where
  data_rate : ctrl_reg1.odr.State
  power_mode : ctrl_reg1.lp_en.Variant
  axis_enable : ctrl_reg1.axis_enable.Variant
  full_scale : ctrl_reg4.fs.Variant
  resolution_mode : ctrl_reg4.hr.Variant
  odr_entitled : odrEntitled data_rate power_mode = true
  hr_entitled : hrEntitled resolution_mode power_mode = true

/-- Source `config::ConfigAsBytes`: the rendered register bytes of a valid
configuration. -/
structure ConfigAsBytes where
  ctrl_reg0 : Nat
  temp_cfg_reg : Nat
  ctrl_reg1 : Nat
  ctrl_reg4 : Nat
  deriving DecidableEq

/-- The body of `ValidLis3dhConfig::render_as_bytes` as a function of the
five field states (the unmanaged fields use their `Default` type-states as
in the source). -/
def renderFields (o : ctrl_reg1.odr.State) (l : ctrl_reg1.lp_en.Variant)
    (ax : ctrl_reg1.axis_enable.Variant) (f : ctrl_reg4.fs.Variant)
    (h : ctrl_reg4.hr.Variant) : ConfigAsBytes where
  ctrl_reg0 := ctrl_reg0.render_hardware_state .SdoPulledUp .MustSet
  temp_cfg_reg := temp_cfg_reg.render_hardware_state .AdcDisabled .TempDisabled
  ctrl_reg1 := ctrl_reg1.render_hardware_state o l ax
  ctrl_reg4 := ctrl_reg4.render_hardware_state .ContinuousDataUpdate
    .LittleEndian f h .NormalMode .Spi4Wire

/-- Source `Config::render_as_bytes`. -/
def Config.render_as_bytes (c : Config) : ConfigAsBytes :=
  renderFields c.data_rate c.power_mode c.axis_enable c.full_scale
    c.resolution_mode

-- ---------------------------------------------------------------------------
-- Derived properties, from `properties.rs`.
-- ---------------------------------------------------------------------------

namespace resolution

/-- Source `properties::resolution::Variant`; the `raw` function gives the
`repr(u8)` discriminants (8, 10, 12), used as the bit count. -/
inductive Variant
  | R8Bit
  | R10Bit
  | R12Bit
  deriving DecidableEq, Fintype

/-- The `repr(u8)` discriminant of a resolution variant (`VARIANT as u8`). -/
def Variant.raw : Variant → Nat
  | .R8Bit => 8
  | .R10Bit => 10
  | .R12Bit => 12

end resolution

/-- The const match in `resolution::Resolution::VARIANT`, with the
`unreachable!()` arm modelled as `none`. -/
def resolutionVariant : ctrl_reg1.lp_en.Variant → ctrl_reg4.hr.Variant →
    Option resolution.Variant
  | .LowPowerMode, .NormalResolution => some .R8Bit
  | .NormalPowerMode, .NormalResolution => some .R10Bit
  | .NormalPowerMode, .HighResolution => some .R12Bit
  | .LowPowerMode, .HighResolution => none

/-- The same const match restricted to entitled pairs, where the
`unreachable!()` arm is statically impossible: this is the value of
`Config::Resolution::VARIANT` for a type implementing
`ValidLis3dhConfig`. -/
def resolutionOfValid : (l : ctrl_reg1.lp_en.Variant) →
    (h : ctrl_reg4.hr.Variant) → hrEntitled h l = true → resolution.Variant
  | .LowPowerMode, .NormalResolution, _ => .R8Bit
  | .NormalPowerMode, .NormalResolution, _ => .R10Bit
  | .NormalPowerMode, .HighResolution, _ => .R12Bit
  | .LowPowerMode, .HighResolution, hv => Bool.noConfusion hv

/-- The resolution property of a valid configuration. -/
def Config.resolution (c : Config) : resolution.Variant :=
  resolutionOfValid c.power_mode c.resolution_mode c.hr_entitled

/-- The const match in `gravity_coefficient::GravityCoefficient`, with the
`f32` literals modelled as the exact rationals written in the source. -/
def gravityCoefficient : ctrl_reg4.fs.Variant → resolution.Variant → ℚ
  | .S2G, .R8Bit => 0.016
  | .S2G, .R10Bit => 0.004
  | .S2G, .R12Bit => 0.001
  | .S4G, .R8Bit => 0.032
  | .S4G, .R10Bit => 0.008
  | .S4G, .R12Bit => 0.002
  | .S8G, .R8Bit => 0.064
  | .S8G, .R10Bit => 0.016
  | .S8G, .R12Bit => 0.004
  | .S16G, .R8Bit => 0.192
  | .S16G, .R10Bit => 0.048
  | .S16G, .R12Bit => 0.012

/-- The gravity-coefficient property of a valid configuration
(`Config::GravityCoefficient`), a function of `Fs` and the derived
resolution only. -/
def Config.gravity_coefficient (c : Config) : ℚ :=
  gravityCoefficient c.full_scale c.resolution

-- ---------------------------------------------------------------------------
-- Sample decoding, from `lib.rs::accel_raw_into_i16` and
-- `acceleration_data_structs.rs`.
-- ---------------------------------------------------------------------------

/-- Source `i16::from_le_bytes([lower, upper])`: the little-endian 16-bit two's
complement integer of the byte pair. -/
def i16_from_le_bytes (lower upper : Nat) : Int :=
  let u : Nat := lower % 256 + 256 * (upper % 256)
  if u < 32768 then (u : Int) else (u : Int) - 65536

/-- Arithmetic shift right on a signed integer (Rust `>>` on `i16`):
flooring division by a power of two. -/
def i16_asr (x : Int) (n : Nat) : Int := Int.fdiv x (2 ^ n)

/-- Source `Lis3dh::accel_raw_into_i16`: combine lower and upper bytes as a
little-endian `i16`, then arithmetic-shift right by
`16 - Resolution::VARIANT as u8`. -/
def accel_raw_into_i16 (res : resolution.Variant) (lower upper : Nat) : Int :=
  i16_asr (i16_from_le_bytes lower upper) (16 - res.raw)

/-- Source `acceleration_data_structs::Acceleration`. -/
structure Acceleration where
  value : Int
  deriving DecidableEq

/-- Source `Acceleration::as_g`: convert to units of gravity by multiplying with
the gravity coefficient. -/
def Acceleration.as_g (a : Acceleration) (coeff : ℚ) : ℚ :=
  (a.value : ℚ) * coeff

/-- Source `acceleration_data_structs::AccelerationVector`. -/
structure AccelerationVector where
  x : Acceleration
  y : Acceleration
  z : Acceleration
  deriving DecidableEq

-- ---------------------------------------------------------------------------
-- Error type, from `lib.rs::Error`.
-- ---------------------------------------------------------------------------

/-- Source `lib.rs::Error<BusErrorType>`: its only constructor wraps the transport
error (`From<BusErrorType>` wraps unchanged via `Error::Bus`). -/
inductive Error (ε : Type)
  | Bus (e : ε)

-- ---------------------------------------------------------------------------
-- Bus trait model, from `bus.rs::Lis3dhBus`. The abstract transport is an
-- oracle assigning a result to every possible bus call; each driver
-- operation returns the list of bus operations it issues (in order, stopping
-- at the first failure, as `?` does) together with its result.
-- ---------------------------------------------------------------------------

/-- A bus operation issued by the driver (addresses are the numeric register
addresses). -/
inductive BusOp
  | write (addr value : Nat)
  | writeMultiple (startAddr : Nat) (values : List Nat)
  | read (addr : Nat)
  | readMultiple (startAddr : Nat) (len : Nat)
  deriving DecidableEq

/-- The transport oracle: the outcome the underlying transport produces for
each bus call (`Lis3dhBus` methods). -/
structure BusModel (ε : Type) where
  writeResult : Nat → Nat → Except ε Unit
  writeMultipleResult : Nat → List Nat → Except ε Unit
  readResult : Nat → Except ε Nat
  readMultipleResult : Nat → Nat → Except ε (List Nat)

namespace Lis3dh

/-- Source `Lis3dh::new`: render the configuration, write CTRL_REG0..CTRL_REG1 as
one multi-write, then CTRL_REG4 as a single write; any transport error is
wrapped by `Error::Bus` and returned immediately (the `?` operator). On
success the handle (carrying the configuration) is returned. -/
def new (bus : BusModel ε) (c : Config) :
    List BusOp × Except (Error ε) Config :=
  let bytes := c.render_as_bytes
  let block1 := [bytes.ctrl_reg0, bytes.temp_cfg_reg, bytes.ctrl_reg1]
  let a0 := ReadWriteRegisterAddress.CtrlReg0.toByte
  let a4 := ReadWriteRegisterAddress.CtrlReg4.toByte
  match bus.writeMultipleResult a0 block1 with
  | .error e => ([.writeMultiple a0 block1], .error (.Bus e))
  | .ok _ =>
    match bus.writeResult a4 bytes.ctrl_reg4 with
    | .error e =>
      ([.writeMultiple a0 block1, .write a4 bytes.ctrl_reg4], .error (.Bus e))
    | .ok _ =>
      ([.writeMultiple a0 block1, .write a4 bytes.ctrl_reg4], .ok c)

/-- Source `Lis3dh::reconfigure`: consumes the handle and re-runs full
initialization with the new configuration. -/
def reconfigure (bus : BusModel ε) (newConfig : Config) :
    List BusOp × Except (Error ε) Config :=
  new bus newConfig

/-- Source `Lis3dh::read_who_am_i`: single read of the WHO_AM_I register. -/
def read_who_am_i (bus : BusModel ε) : List BusOp × Except (Error ε) Nat :=
  let a := ReadOnlyRegisterAddress.WhoAmI.toByte
  match bus.readResult a with
  | .error e => ([.read a], .error (.Bus e))
  | .ok v => ([.read a], .ok v)

/-- Source `Lis3dh::read_accel_bytes`: one multi-read of six bytes starting at
OUT_X_L; the result buffer is initialized to zero, so missing transport
bytes read as 0. -/
def read_accel_bytes (bus : BusModel ε) :
    List BusOp × Except (Error ε) (List Nat) :=
  let a := ReadOnlyRegisterAddress.OutXL.toByte
  match bus.readMultipleResult a 6 with
  | .error e => ([.readMultiple a 6], .error (.Bus e))
  | .ok l => ([.readMultiple a 6], .ok ((List.range 6).map (fun i => l.getD i 0)))

/-- Source `Lis3dh::get_accel_vector`: read the six output bytes and decode each
axis with `accel_raw_into_i16` at the configuration's resolution. -/
def get_accel_vector (bus : BusModel ε) (c : Config) :
    List BusOp × Except (Error ε) AccelerationVector :=
  match read_accel_bytes bus with
  | (t, .error e) => (t, .error e)
  | (t, .ok bytes) =>
    let r := c.resolution
    let x := Acceleration.mk (accel_raw_into_i16 r (bytes.getD 0 0) (bytes.getD 1 0))
    let y := Acceleration.mk (accel_raw_into_i16 r (bytes.getD 2 0) (bytes.getD 3 0))
    let z := Acceleration.mk (accel_raw_into_i16 r (bytes.getD 4 0) (bytes.getD 5 0))
    (t, .ok (AccelerationVector.mk x y z))

/-- Source `Lis3dh::read_register`: raw single-register read. -/
def read_register (bus : BusModel ε) (a : RegisterAddress) :
    List BusOp × Except (Error ε) Nat :=
  match bus.readResult a.byte_address with
  | .error e => ([.read a.byte_address], .error (.Bus e))
  | .ok v => ([.read a.byte_address], .ok v)

/-- Source `Lis3dh::read_multiple_registers`: raw multi-register read of `len`
bytes. -/
def read_multiple_registers (bus : BusModel ε) (a : RegisterAddress)
    (len : Nat) : List BusOp × Except (Error ε) (List Nat) :=
  match bus.readMultipleResult a.byte_address len with
  | .error e => ([.readMultiple a.byte_address len], .error (.Bus e))
  | .ok l => ([.readMultiple a.byte_address len], .ok l)

/-- Source `Lis3dh::write_register`: raw single-register write. -/
def write_register (bus : BusModel ε) (a : ReadWriteRegisterAddress)
    (v : Nat) : List BusOp × Except (Error ε) Unit :=
  match bus.writeResult a.toByte v with
  | .error e => ([.write a.toByte v], .error (.Bus e))
  | .ok _ => ([.write a.toByte v], .ok ())

/-- Source `Lis3dh::write_multiple_registers`: raw multi-register write. -/
def write_multiple_registers (bus : BusModel ε)
    (a : ReadWriteRegisterAddress) (vs : List Nat) :
    List BusOp × Except (Error ε) Unit :=
  match bus.writeMultipleResult a.toByte vs with
  | .error e => ([.writeMultiple a.toByte vs], .error (.Bus e))
  | .ok _ => ([.writeMultiple a.toByte vs], .ok ())

end Lis3dh

-- ---------------------------------------------------------------------------
-- SPI wire encoding, from `bus/spi.rs`.
-- ---------------------------------------------------------------------------

/-- Source `bus/spi.rs::Lis3dhOperation`. -/
inductive Lis3dhOperation
  | SingleWrite
  | SingleRead
  | MultipleWrite
  | MultipleRead
  deriving DecidableEq, Fintype

/-- The `Lis3dhOperation` discriminants (`op as u8`). -/
def Lis3dhOperation.raw : Lis3dhOperation → Nat
  | .SingleWrite => 0b00000000
  | .SingleRead => 0b10000000
  | .MultipleWrite => 0b01000000
  | .MultipleRead => 0b11000000

/-- One `embedded_hal` SPI transaction operation: either a buffer written to
the device or a number of bytes read from it. -/
inductive SpiTransactionOp
  | write (bytes : List Nat)
  | read (len : Nat)
  deriving DecidableEq

/-- The byte stream a transaction sends to the device: concatenation of the
written buffers. -/
def sentBytes : List SpiTransactionOp → List Nat
  | [] => []
  | .write bs :: rest => bs ++ sentBytes rest
  | .read _ :: rest => sentBytes rest

/-- Source `Lis3dhAsyncSpi::write`: one transaction writing
`[SingleWrite | address, value]`. -/
def spi_write (a : ReadWriteRegisterAddress) (v : Nat) :
    List SpiTransactionOp :=
  [.write [Lis3dhOperation.SingleWrite.raw ||| a.toByte, v]]

/-- Source `Lis3dhAsyncSpi::write_multiple`: one transaction writing the control
byte `[MultipleWrite | start_address]` followed by the payload buffer. -/
def spi_write_multiple (a : ReadWriteRegisterAddress) (vs : List Nat) :
    List SpiTransactionOp :=
  [.write [Lis3dhOperation.MultipleWrite.raw ||| a.toByte], .write vs]

/-- Source `Lis3dhAsyncSpi::read`: one transaction writing the control byte
`[SingleRead | address]` then reading one byte. -/
def spi_read (a : RegisterAddress) : List SpiTransactionOp :=
  [.write [Lis3dhOperation.SingleRead.raw ||| a.byte_address], .read 1]

/-- Source `Lis3dhAsyncSpi::read_multiple`: one transaction writing the control
byte `[MultipleRead | start_address]` then reading `len` bytes. -/
def spi_read_multiple (a : RegisterAddress) (len : Nat) :
    List SpiTransactionOp :=
  [.write [Lis3dhOperation.MultipleRead.raw ||| a.byte_address], .read len]

-- ---------------------------------------------------------------------------
-- Device model for write transactions: auto-incrementing register store.
-- ---------------------------------------------------------------------------

/-- Device register state: a total map from addresses to byte values. -/
def DeviceRegs : Type := Nat → Nat

/-- A single-register store. -/
def applyWrite (regs : DeviceRegs) (a v : Nat) : DeviceRegs :=
  fun x => if x = a then v else regs x

/-- The granted device model of a multi-write with address auto-increment:
byte `i` of the payload is stored at address `startAddr + i`; other
registers are unchanged. -/
def autoIncStore (regs : DeviceRegs) (a : Nat) (vs : List Nat) : DeviceRegs :=
  fun x => if a ≤ x ∧ x < a + vs.length then vs.getD (x - a) 0 else regs x

/-- How the device interprets the byte stream of one write transaction: the
first byte is the control byte (top two bits the operation, low six bits the
address); a single write stores its one payload byte, a multi write stores
the payload with auto-increment, and read operations leave the registers
unchanged. -/
def deviceApplyBytes (regs : DeviceRegs) : List Nat → DeviceRegs
  | [] => regs
  | ctrl :: payload =>
    let op := ctrl / 64
    let addr := ctrl % 64
    if op = 0 then
      match payload with
      | [v] => applyWrite regs addr v
      | _ => regs
    else if op = 1 then autoIncStore regs addr payload
    else regs

/-- The byte stream of a raw single write at numeric address `a` (the bytes
`spi_write` sends). -/
def writeTransactionBytes (a v : Nat) : List Nat :=
  [Lis3dhOperation.SingleWrite.raw ||| a, v]

/-- The byte stream of a raw multi write at numeric address `a` (the bytes
`spi_write_multiple` sends). -/
def writeMultipleTransactionBytes (a : Nat) (vs : List Nat) : List Nat :=
  (Lis3dhOperation.MultipleWrite.raw ||| a) :: vs

/-- Sequence of `N` single writes at consecutive addresses, each applied to
the device as its own transaction. -/
def seqSingleWrites (regs : DeviceRegs) (a : Nat) : List Nat → DeviceRegs
  | [] => regs
  | v :: rest =>
    seqSingleWrites (deviceApplyBytes regs (writeTransactionBytes a v)) (a + 1) rest

-- ---------------------------------------------------------------------------
-- Auxiliary definitions for stating and witnessing the claims.
-- ---------------------------------------------------------------------------

/-- Extract a bit field from a register byte using its documented offset and
width. -/
def decode_field (byte off width : Nat) : Nat := (byte >>> off) % (2 ^ width)

/-- Spec-side definition, following the specification's words for sample
decoding: interpret the two bytes as a little-endian 16-bit two's-complement
integer (here phrased via a centred modulus rather than the source's
branch), to be compared with `i16_from_le_bytes`. -/
def specLeTwosComplement (lower upper : Nat) : Int :=
  (((lower + 256 * upper + 32768) % 65536 : Nat) : Int) - 32768

/-- The configuration {dataRate = 100 Hz, powerMode = Normal, axes = XYZ,
fullScale = ±2g, resolutionMode = Normal} from the end-to-end spec item. -/
def exampleConfig : Config where
  data_rate := .F100Hz
  power_mode := .NormalPowerMode
  axis_enable := .XYZEnabled
  full_scale := .S2G
  resolution_mode := .NormalResolution
  odr_entitled := rfl
  hr_entitled := rfl

/-- A valid configuration using the overloaded output-data-rate code 0b1001
in normal power mode (the 1.344 kHz reading). -/
def configF1344 : Config where
  data_rate := .F1344Hz
  power_mode := .NormalPowerMode
  axis_enable := .XYZEnabled
  full_scale := .S2G
  resolution_mode := .NormalResolution
  odr_entitled := rfl
  hr_entitled := rfl

/-- A transport oracle on which every call succeeds (reads return zero). -/
def allOkBus : BusModel Unit where
  writeResult := fun _ _ => .ok ()
  writeMultipleResult := fun _ _ => .ok ()
  readResult := fun _ => .ok 0
  readMultipleResult := fun _ n => .ok (List.replicate n 0)

/-- A transport oracle on which every call fails. -/
def failingBus : BusModel Unit where
  writeResult := fun _ _ => .error ()
  writeMultipleResult := fun _ _ => .error ()
  readResult := fun _ => .error ()
  readMultipleResult := fun _ _ => .error ()

-- ---------------------------------------------------------------------------
-- Helper lemmas.
-- ---------------------------------------------------------------------------

/-- For a legal power-mode/resolution-mode pair, the total `Resolution`
derivation agrees with the `Option`-valued one: the match never reaches the
`unreachable!()` arm. -/
theorem resolutionVariant_eq_of_valid (l : ctrl_reg1.lp_en.Variant)
    (h : ctrl_reg4.hr.Variant) (hv : hrEntitled h l = true) :
    resolutionVariant l h = some (resolutionOfValid l h hv) := by
  cases l <;> cases h <;> first | rfl | exact Bool.noConfusion hv

/-- For bytes, the source's branch-based `i16::from_le_bytes` equals the
spec's little-endian two's-complement reading. -/
theorem i16_from_le_bytes_eq_spec (lower upper : Nat) (hl : lower < 256)
    (hu : upper < 256) :
    i16_from_le_bytes lower upper = specLeTwosComplement lower upper := by
  simp only [i16_from_le_bytes, specLeTwosComplement]
  rw [Nat.mod_eq_of_lt hl, Nat.mod_eq_of_lt hu]
  split <;> omega

/-- The single-write control byte has operation bits 00 and address bits the
six-bit address. -/
theorem ctrl_byte_single_write : ∀ a : Nat, a < 64 →
    (Lis3dhOperation.SingleWrite.raw ||| a) / 64 = 0 ∧
    (Lis3dhOperation.SingleWrite.raw ||| a) % 64 = a := by decide

/-- The multi-write control byte has operation bits 01 and address bits the
six-bit address. -/
theorem ctrl_byte_multi_write : ∀ a : Nat, a < 64 →
    (Lis3dhOperation.MultipleWrite.raw ||| a) / 64 = 1 ∧
    (Lis3dhOperation.MultipleWrite.raw ||| a) % 64 = a := by decide

/-- The device decodes a single-write transaction as one register store. -/
theorem deviceApplyBytes_single_write (regs : DeviceRegs) (a v : Nat)
    (ha : a < 64) :
    deviceApplyBytes regs (writeTransactionBytes a v) = applyWrite regs a v := by
  obtain ⟨h1, h2⟩ := ctrl_byte_single_write a ha
  simp [deviceApplyBytes, writeTransactionBytes, h1, h2]

/-- The device decodes a multi-write transaction as an auto-incrementing
store of the payload. -/
theorem deviceApplyBytes_multi_write (regs : DeviceRegs) (a : Nat)
    (vs : List Nat) (ha : a < 64) :
    deviceApplyBytes regs (writeMultipleTransactionBytes a vs) =
      autoIncStore regs a vs := by
  obtain ⟨h1, h2⟩ := ctrl_byte_multi_write a ha
  simp [deviceApplyBytes, writeMultipleTransactionBytes, h1, h2]

/-- Peeling one byte off an auto-incrementing store. -/
theorem autoIncStore_cons (regs : DeviceRegs) (a v : Nat) (vs : List Nat) :
    autoIncStore regs a (v :: vs) = autoIncStore (applyWrite regs a v) (a + 1) vs := by
  funext x
  simp only [autoIncStore, applyWrite, List.length_cons]
  by_cases hx : x = a
  · subst hx
    rw [if_pos ⟨le_refl x, by omega⟩, if_neg (by omega), if_pos rfl]
    simp [Nat.sub_self]
  · by_cases hr : a + 1 ≤ x ∧ x < a + 1 + vs.length
    · rw [if_pos ⟨by omega, by omega⟩, if_pos hr]
      have hxa : x - a = (x - (a + 1)) + 1 := by omega
      rw [hxa, List.getD_cons_succ]
    · rw [if_neg (by omega), if_neg hr, if_neg hx]

/-- An auto-incrementing store of `N` bytes equals `N` sequential
single-write transactions at consecutive addresses (all within the six-bit
address space). -/
theorem autoIncStore_eq_seqSingleWrites :
    ∀ (vs : List Nat) (a : Nat) (regs : DeviceRegs), a + vs.length ≤ 64 →
      autoIncStore regs a vs = seqSingleWrites regs a vs := by
  intro vs
  induction vs with
  | nil =>
    intro a regs _
    funext x
    simp only [autoIncStore, seqSingleWrites, List.length_nil]
    rw [if_neg (by omega)]
  | cons v rest ih =>
    intro a regs hb
    simp only [List.length_cons] at hb
    have ha : a < 64 := by omega
    rw [autoIncStore_cons]
    rw [show seqSingleWrites regs a (v :: rest) =
      seqSingleWrites (deviceApplyBytes regs (writeTransactionBytes a v)) (a + 1) rest from rfl]
    rw [deviceApplyBytes_single_write regs a v ha]
    exact ih (a + 1) (applyWrite regs a v) (by omega)

-- ---------------------------------------------------------------------------
-- Claim theorems.
-- ---------------------------------------------------------------------------

/-- Claim C1: for every configuration accepted by the driver (every
inhabitant of `Config`, i.e. every type implementing `ValidLis3dhConfig`),
the pair (lp_en = LowPowerMode, hr = HighResolution) is unrepresentable, the
`unreachable!()` arm of the `Resolution` derivation is never reached (the
derivation always yields a value), and the rendered register bytes never
show the documented-illegal combination of the lp_en bit and the hr bit both
set. -/
theorem claim1_illegal_resolution_pair_unrepresentable :
    ∀ c : Config,
      ¬(c.power_mode = .LowPowerMode ∧ c.resolution_mode = .HighResolution) ∧
      (resolutionVariant c.power_mode c.resolution_mode).isSome = true ∧
      ¬(decode_field c.render_as_bytes.ctrl_reg1 ctrl_reg1.lp_en.OFFSET
          ctrl_reg1.lp_en.WIDTH = 1 ∧
        decode_field c.render_as_bytes.ctrl_reg4 ctrl_reg4.hr.OFFSET
          ctrl_reg4.hr.WIDTH = 1) := by
  intro c
  rcases c with ⟨o, l, ax, f, h, ho, hh⟩
  revert o l ax f h
  decide

/-- Witness for claim C1 at the example configuration. -/
theorem claim1_witness :
    ¬(exampleConfig.power_mode = .LowPowerMode ∧
      exampleConfig.resolution_mode = .HighResolution) ∧
    (resolutionVariant exampleConfig.power_mode
      exampleConfig.resolution_mode).isSome = true ∧
    ¬(decode_field exampleConfig.render_as_bytes.ctrl_reg1
        ctrl_reg1.lp_en.OFFSET ctrl_reg1.lp_en.WIDTH = 1 ∧
      decode_field exampleConfig.render_as_bytes.ctrl_reg4
        ctrl_reg4.hr.OFFSET ctrl_reg4.hr.WIDTH = 1) :=
  claim1_illegal_resolution_pair_unrepresentable exampleConfig

/-- Claim C2: initializing with {dataRate = 100 Hz, powerMode = Normal,
axes = XYZ, fullScale = ±2g, resolutionMode = Normal} performs exactly two
bus transactions — a 3-byte multi-write of [0x10, 0x00, 0x57] starting at
CTRL_REG0 (0x1E) followed by a single write of 0x00 to CTRL_REG4 (0x23) —
and returns the handle when both writes succeed. -/
theorem claim2_new_default_config_transactions (ε : Type) (bus : BusModel ε)
    (h1 : bus.writeMultipleResult 0x1E [0x10, 0x00, 0x57] = .ok ())
    (h2 : bus.writeResult 0x23 0x00 = .ok ()) :
    Lis3dh.new bus exampleConfig =
      ([.writeMultiple 0x1E [0x10, 0x00, 0x57], .write 0x23 0x00],
        .ok exampleConfig) := by
  have e1 : exampleConfig.render_as_bytes = ConfigAsBytes.mk 0x10 0x00 0x57 0x00 := by
    decide
  simp only [Lis3dh.new, e1, ReadWriteRegisterAddress.toByte]
  rw [h1, h2]

/-- Witness for claim C2 on the all-succeeding transport. -/
theorem claim2_witness :
    allOkBus.writeMultipleResult 0x1E [0x10, 0x00, 0x57] = .ok () ∧
    allOkBus.writeResult 0x23 0x00 = .ok () ∧
    Lis3dh.new allOkBus exampleConfig =
      ([.writeMultiple 0x1E [0x10, 0x00, 0x57], .write 0x23 0x00],
        .ok exampleConfig) :=
  ⟨rfl, rfl, claim2_new_default_config_transactions Unit allOkBus rfl rfl⟩

/-- Claim C3: for every valid configuration the active resolution is 8, 10
or 12 bits and the sample decoder computes the little-endian 16-bit
two's-complement integer of the byte pair arithmetic-shifted right (flooring
division by a power of two) by 16 minus the resolution bit count; in
particular [0xFF, 0x0F] at 12-bit decodes to 255 and [0x00, 0x80] at 8-bit
decodes to −128. -/
theorem claim3_sample_decoder_correct :
    (∀ c : Config,
      (c.resolution.raw = 8 ∨ c.resolution.raw = 10 ∨ c.resolution.raw = 12) ∧
      ∀ lower upper : Nat, lower < 256 → upper < 256 →
        accel_raw_into_i16 c.resolution lower upper =
          Int.fdiv (specLeTwosComplement lower upper)
            (2 ^ (16 - c.resolution.raw))) ∧
    accel_raw_into_i16 .R12Bit 0xFF 0x0F = 255 ∧
    accel_raw_into_i16 .R8Bit 0x00 0x80 = -128 := by
  refine ⟨?_, by decide, by decide⟩
  intro c
  constructor
  · rcases c with ⟨o, l, ax, f, h, ho, hh⟩
    cases l <;> cases h <;>
      first
        | exact absurd hh (by decide)
        | simp [Config.resolution, resolutionOfValid, resolution.Variant.raw]
  · intro lower upper hl hu
    simp only [accel_raw_into_i16, i16_asr]
    rw [i16_from_le_bytes_eq_spec lower upper hl hu]

/-- Witness for claim C3 at the example configuration and bytes
[0xFF, 0x00]. -/
theorem claim3_witness :
    (0xFF : Nat) < 256 ∧ (0x00 : Nat) < 256 ∧
    accel_raw_into_i16 exampleConfig.resolution 0xFF 0x00 =
      Int.fdiv (specLeTwosComplement 0xFF 0x00)
        (2 ^ (16 - exampleConfig.resolution.raw)) :=
  ⟨by decide, by decide,
    (claim3_sample_decoder_correct.1 exampleConfig).2 0xFF 0x00 (by decide)
      (by decide)⟩

/-- Claim C4: rendering a legal configuration to register bytes and decoding
each managed field back out of those bytes via its documented offset and
width recovers exactly the raw variant values the configuration was built
from. -/
theorem claim4_render_decode_round_trip :
    ∀ c : Config,
      decode_field c.render_as_bytes.ctrl_reg1 ctrl_reg1.odr.OFFSET
        ctrl_reg1.odr.WIDTH = c.data_rate.variant.raw ∧
      decode_field c.render_as_bytes.ctrl_reg1 ctrl_reg1.lp_en.OFFSET
        ctrl_reg1.lp_en.WIDTH = c.power_mode.raw ∧
      decode_field c.render_as_bytes.ctrl_reg1 ctrl_reg1.axis_enable.OFFSET
        ctrl_reg1.axis_enable.WIDTH = c.axis_enable.raw ∧
      decode_field c.render_as_bytes.ctrl_reg4 ctrl_reg4.fs.OFFSET
        ctrl_reg4.fs.WIDTH = c.full_scale.raw ∧
      decode_field c.render_as_bytes.ctrl_reg4 ctrl_reg4.hr.OFFSET
        ctrl_reg4.hr.WIDTH = c.resolution_mode.raw := by
  intro c
  rcases c with ⟨o, l, ax, f, h, ho, hh⟩
  revert o l ax f h
  decide

/-- Witness for claim C4 at the example configuration. -/
theorem claim4_witness :
    decode_field exampleConfig.render_as_bytes.ctrl_reg1 ctrl_reg1.odr.OFFSET
      ctrl_reg1.odr.WIDTH = exampleConfig.data_rate.variant.raw ∧
    decode_field exampleConfig.render_as_bytes.ctrl_reg1 ctrl_reg1.lp_en.OFFSET
      ctrl_reg1.lp_en.WIDTH = exampleConfig.power_mode.raw ∧
    decode_field exampleConfig.render_as_bytes.ctrl_reg1
      ctrl_reg1.axis_enable.OFFSET ctrl_reg1.axis_enable.WIDTH =
      exampleConfig.axis_enable.raw ∧
    decode_field exampleConfig.render_as_bytes.ctrl_reg4 ctrl_reg4.fs.OFFSET
      ctrl_reg4.fs.WIDTH = exampleConfig.full_scale.raw ∧
    decode_field exampleConfig.render_as_bytes.ctrl_reg4 ctrl_reg4.hr.OFFSET
      ctrl_reg4.hr.WIDTH = exampleConfig.resolution_mode.raw :=
  claim4_render_decode_round_trip exampleConfig

/-- Claim C5: every bus transaction sends exactly one control byte before
the payload, whose top two bits are 00 / 01 / 10 / 11 for single-write /
multi-write / single-read / multi-read and whose low six bits are the
register address; multi-byte transfers send no further control bytes
between payload bytes. -/
theorem claim5_control_byte_encoding :
    (∀ (a : ReadWriteRegisterAddress) (v : Nat),
      sentBytes (spi_write a v) =
        (Lis3dhOperation.SingleWrite.raw ||| a.toByte) :: [v] ∧
      (Lis3dhOperation.SingleWrite.raw ||| a.toByte) / 64 = 0b00 ∧
      (Lis3dhOperation.SingleWrite.raw ||| a.toByte) % 64 = a.toByte) ∧
    (∀ (a : ReadWriteRegisterAddress) (vs : List Nat),
      sentBytes (spi_write_multiple a vs) =
        (Lis3dhOperation.MultipleWrite.raw ||| a.toByte) :: vs ∧
      (Lis3dhOperation.MultipleWrite.raw ||| a.toByte) / 64 = 0b01 ∧
      (Lis3dhOperation.MultipleWrite.raw ||| a.toByte) % 64 = a.toByte) ∧
    (∀ a : RegisterAddress,
      sentBytes (spi_read a) =
        [Lis3dhOperation.SingleRead.raw ||| a.byte_address] ∧
      (Lis3dhOperation.SingleRead.raw ||| a.byte_address) / 64 = 0b10 ∧
      (Lis3dhOperation.SingleRead.raw ||| a.byte_address) % 64 = a.byte_address) ∧
    (∀ (a : RegisterAddress) (len : Nat),
      sentBytes (spi_read_multiple a len) =
        [Lis3dhOperation.MultipleRead.raw ||| a.byte_address] ∧
      (Lis3dhOperation.MultipleRead.raw ||| a.byte_address) / 64 = 0b11 ∧
      (Lis3dhOperation.MultipleRead.raw ||| a.byte_address) % 64 = a.byte_address) := by
  have h1 : ∀ a : ReadWriteRegisterAddress,
      (Lis3dhOperation.SingleWrite.raw ||| a.toByte) / 64 = 0b00 ∧
      (Lis3dhOperation.SingleWrite.raw ||| a.toByte) % 64 = a.toByte := by decide
  have h2 : ∀ a : ReadWriteRegisterAddress,
      (Lis3dhOperation.MultipleWrite.raw ||| a.toByte) / 64 = 0b01 ∧
      (Lis3dhOperation.MultipleWrite.raw ||| a.toByte) % 64 = a.toByte := by decide
  have h3 : ∀ a : RegisterAddress,
      (Lis3dhOperation.SingleRead.raw ||| a.byte_address) / 64 = 0b10 ∧
      (Lis3dhOperation.SingleRead.raw ||| a.byte_address) % 64 = a.byte_address := by
    decide
  have h4 : ∀ a : RegisterAddress,
      (Lis3dhOperation.MultipleRead.raw ||| a.byte_address) / 64 = 0b11 ∧
      (Lis3dhOperation.MultipleRead.raw ||| a.byte_address) % 64 = a.byte_address := by
    decide
  exact ⟨fun a v => ⟨by simp [sentBytes, spi_write], (h1 a).1, (h1 a).2⟩,
    fun a vs => ⟨by simp [sentBytes, spi_write_multiple], (h2 a).1, (h2 a).2⟩,
    fun a => ⟨by simp [sentBytes, spi_read], (h3 a).1, (h3 a).2⟩,
    fun a len => ⟨by simp [sentBytes, spi_read_multiple], (h4 a).1, (h4 a).2⟩⟩

/-- Witness for claim C5: the single-write wire format at CTRL_REG4 with
value 0. -/
theorem claim5_witness :
    sentBytes (spi_write .CtrlReg4 0) =
      (Lis3dhOperation.SingleWrite.raw |||
        ReadWriteRegisterAddress.CtrlReg4.toByte) :: [0] ∧
    (Lis3dhOperation.SingleWrite.raw |||
      ReadWriteRegisterAddress.CtrlReg4.toByte) / 64 = 0b00 ∧
    (Lis3dhOperation.SingleWrite.raw |||
      ReadWriteRegisterAddress.CtrlReg4.toByte) % 64 =
      ReadWriteRegisterAddress.CtrlReg4.toByte :=
  claim5_control_byte_encoding.1 .CtrlReg4 0

/-- Claim C6: under the auto-increment device model, a multi-write
transaction starting at address A with N payload bytes leaves the device
registers in the same state as N sequential single-write transactions at
addresses A, A+1, …, A+N−1. -/
theorem claim6_write_multiple_equiv_single_writes
    (A : ReadWriteRegisterAddress) (vs : List Nat) (regs : DeviceRegs)
    (hb : A.toByte + vs.length ≤ 64) :
    deviceApplyBytes regs (sentBytes (spi_write_multiple A vs)) =
      seqSingleWrites regs A.toByte vs := by
  have hA : A.toByte < 64 := by cases A <;> decide
  have hs : sentBytes (spi_write_multiple A vs) =
      writeMultipleTransactionBytes A.toByte vs := by
    simp [sentBytes, spi_write_multiple, writeMultipleTransactionBytes]
  rw [hs, deviceApplyBytes_multi_write regs A.toByte vs hA]
  exact autoIncStore_eq_seqSingleWrites vs A.toByte regs hb

/-- Witness for claim C6: the three-byte configuration block write at
CTRL_REG0. -/
theorem claim6_witness :
    ReadWriteRegisterAddress.CtrlReg0.toByte + [0x10, 0x00, 0x57].length ≤ 64 ∧
    deviceApplyBytes (fun _ => 0)
        (sentBytes (spi_write_multiple .CtrlReg0 [0x10, 0x00, 0x57])) =
      seqSingleWrites (fun _ => 0) ReadWriteRegisterAddress.CtrlReg0.toByte
        [0x10, 0x00, 0x57] :=
  ⟨by decide,
    claim6_write_multiple_equiv_single_writes .CtrlReg0 [0x10, 0x00, 0x57]
      (fun _ => 0) (by decide)⟩

/-- Claim C7: the gravity coefficient is a pure function of the full-scale
field and the derived resolution only; full-scale ±4g at 10-bit resolution
yields exactly 0.008, and the whole 12-entry table matches the documented
values. -/
theorem claim7_gravity_coefficient_lookup :
    (∀ c : Config, c.gravity_coefficient =
      gravityCoefficient c.full_scale c.resolution) ∧
    (∀ c c' : Config, c.full_scale = c'.full_scale →
      c.resolution = c'.resolution →
      c.gravity_coefficient = c'.gravity_coefficient) ∧
    gravityCoefficient .S4G .R10Bit = 8 / 1000 ∧
    (gravityCoefficient .S2G .R8Bit = 16 / 1000 ∧
     gravityCoefficient .S2G .R10Bit = 4 / 1000 ∧
     gravityCoefficient .S2G .R12Bit = 1 / 1000 ∧
     gravityCoefficient .S4G .R8Bit = 32 / 1000 ∧
     gravityCoefficient .S4G .R10Bit = 8 / 1000 ∧
     gravityCoefficient .S4G .R12Bit = 2 / 1000 ∧
     gravityCoefficient .S8G .R8Bit = 64 / 1000 ∧
     gravityCoefficient .S8G .R10Bit = 16 / 1000 ∧
     gravityCoefficient .S8G .R12Bit = 4 / 1000 ∧
     gravityCoefficient .S16G .R8Bit = 192 / 1000 ∧
     gravityCoefficient .S16G .R10Bit = 48 / 1000 ∧
     gravityCoefficient .S16G .R12Bit = 12 / 1000) := by
  refine ⟨fun c => rfl, ?_, ?_, ?_⟩
  · intro c c' hfs hres
    rw [Config.gravity_coefficient, Config.gravity_coefficient, hfs, hres]
  · norm_num [gravityCoefficient]
  · refine ⟨?_, ?_, ?_, ?_, ?_, ?_, ?_, ?_, ?_, ?_, ?_, ?_⟩ <;>
      norm_num [gravityCoefficient]

/-- Witness for claim C7's pure-function component at the example
configuration. -/
theorem claim7_witness :
    exampleConfig.full_scale = exampleConfig.full_scale ∧
    exampleConfig.resolution = exampleConfig.resolution ∧
    exampleConfig.gravity_coefficient = exampleConfig.gravity_coefficient :=
  ⟨rfl, rfl,
    claim7_gravity_coefficient_lookup.2.1 exampleConfig exampleConfig rfl rfl⟩

/-- Claim C8: the output-data-rate raw code 0b1001 is overloaded — the
`F1344Hz` and `F5376Hz` states both render to 0b1001 — and the entitlement
constraints make them mutually exclusive by power mode, so in every valid
configuration the meaning of the rendered code 0b1001 is determined by the
`lp_en` field. -/
theorem claim8_overloaded_odr_code :
    (ctrl_reg1.odr.State.F1344Hz.variant.raw = 0b1001 ∧
     ctrl_reg1.odr.State.F5376Hz.variant.raw = 0b1001) ∧
    (∀ l, (odrEntitled .F1344Hz l = true ↔ l = .NormalPowerMode) ∧
          (odrEntitled .F5376Hz l = true ↔ l = .LowPowerMode)) ∧
    (∀ c : Config, c.data_rate.variant.raw = 0b1001 →
      (c.power_mode = .NormalPowerMode → c.data_rate = .F1344Hz) ∧
      (c.power_mode = .LowPowerMode → c.data_rate = .F5376Hz)) := by
  refine ⟨by decide, by decide, ?_⟩
  intro c
  rcases c with ⟨o, l, ax, f, h, ho, hh⟩
  revert o l ax f h
  decide

/-- Witness for claim C8 at a valid configuration carrying the overloaded
raw code in normal power mode. -/
theorem claim8_witness :
    configF1344.data_rate.variant.raw = 0b1001 ∧
    configF1344.data_rate = ctrl_reg1.odr.State.F1344Hz :=
  ⟨by decide,
    (claim8_overloaded_odr_code.2.2 configF1344 (by decide)).1 rfl⟩

/-- Claim C9: the driver's only error kind wraps a transport error
unchanged; every fallible operation fails exactly when its underlying
transport call fails, with that error wrapped as `Error::Bus`, and the
failing operation stops immediately (no retry, no further transaction). -/
theorem claim9_error_propagation :
    (∀ (ε : Type) (r : Error ε), ∃ e, r = .Bus e) ∧
    (∀ (ε : Type) (bus : BusModel ε) (c : Config) (e : ε),
      ((Lis3dh.new bus c).2 = .error (.Bus e) ↔
        bus.writeMultipleResult ReadWriteRegisterAddress.CtrlReg0.toByte
          [c.render_as_bytes.ctrl_reg0, c.render_as_bytes.temp_cfg_reg,
            c.render_as_bytes.ctrl_reg1] = .error e ∨
        (bus.writeMultipleResult ReadWriteRegisterAddress.CtrlReg0.toByte
          [c.render_as_bytes.ctrl_reg0, c.render_as_bytes.temp_cfg_reg,
            c.render_as_bytes.ctrl_reg1] = .ok () ∧
          bus.writeResult ReadWriteRegisterAddress.CtrlReg4.toByte
            c.render_as_bytes.ctrl_reg4 = .error e))) ∧
    (∀ (ε : Type) (bus : BusModel ε) (c : Config),
      Lis3dh.reconfigure bus c = Lis3dh.new bus c) ∧
    (∀ (ε : Type) (bus : BusModel ε) (e : ε),
      ((Lis3dh.read_who_am_i bus).2 = .error (.Bus e) ↔
        bus.readResult ReadOnlyRegisterAddress.WhoAmI.toByte = .error e)) ∧
    (∀ (ε : Type) (bus : BusModel ε) (e : ε),
      ((Lis3dh.read_accel_bytes bus).2 = .error (.Bus e) ↔
        bus.readMultipleResult ReadOnlyRegisterAddress.OutXL.toByte 6 =
          .error e)) ∧
    (∀ (ε : Type) (bus : BusModel ε) (c : Config) (e : ε),
      ((Lis3dh.get_accel_vector bus c).2 = .error (.Bus e) ↔
        bus.readMultipleResult ReadOnlyRegisterAddress.OutXL.toByte 6 =
          .error e)) ∧
    (∀ (ε : Type) (bus : BusModel ε) (a : RegisterAddress) (e : ε),
      ((Lis3dh.read_register bus a).2 = .error (.Bus e) ↔
        bus.readResult a.byte_address = .error e)) ∧
    (∀ (ε : Type) (bus : BusModel ε) (a : RegisterAddress) (len : Nat) (e : ε),
      ((Lis3dh.read_multiple_registers bus a len).2 = .error (.Bus e) ↔
        bus.readMultipleResult a.byte_address len = .error e)) ∧
    (∀ (ε : Type) (bus : BusModel ε) (a : ReadWriteRegisterAddress) (v : Nat)
        (e : ε),
      ((Lis3dh.write_register bus a v).2 = .error (.Bus e) ↔
        bus.writeResult a.toByte v = .error e)) ∧
    (∀ (ε : Type) (bus : BusModel ε) (a : ReadWriteRegisterAddress)
        (vs : List Nat) (e : ε),
      ((Lis3dh.write_multiple_registers bus a vs).2 = .error (.Bus e) ↔
        bus.writeMultipleResult a.toByte vs = .error e)) ∧
    (∀ (ε : Type) (bus : BusModel ε) (c : Config) (e : ε),
      bus.writeMultipleResult ReadWriteRegisterAddress.CtrlReg0.toByte
        [c.render_as_bytes.ctrl_reg0, c.render_as_bytes.temp_cfg_reg,
          c.render_as_bytes.ctrl_reg1] = .error e →
      (Lis3dh.new bus c).1 =
        [.writeMultiple ReadWriteRegisterAddress.CtrlReg0.toByte
          [c.render_as_bytes.ctrl_reg0, c.render_as_bytes.temp_cfg_reg,
            c.render_as_bytes.ctrl_reg1]]) := by
  refine ⟨?_, ?_, ?_, ?_, ?_, ?_, ?_, ?_, ?_, ?_, ?_⟩
  · intro ε r
    cases r with
    | Bus e => exact ⟨e, rfl⟩
  · intro ε bus c e
    cases h1 : bus.writeMultipleResult ReadWriteRegisterAddress.CtrlReg0.toByte
        [c.render_as_bytes.ctrl_reg0, c.render_as_bytes.temp_cfg_reg,
          c.render_as_bytes.ctrl_reg1] with
    | error e' => simp [Lis3dh.new, h1]
    | ok u =>
      cases u
      cases h2 : bus.writeResult ReadWriteRegisterAddress.CtrlReg4.toByte
          c.render_as_bytes.ctrl_reg4 <;>
        simp [Lis3dh.new, h1, h2]
  · intro ε bus c
    rfl
  · intro ε bus e
    cases h : bus.readResult ReadOnlyRegisterAddress.WhoAmI.toByte <;>
      simp [Lis3dh.read_who_am_i, h]
  · intro ε bus e
    cases h : bus.readMultipleResult ReadOnlyRegisterAddress.OutXL.toByte 6 <;>
      simp [Lis3dh.read_accel_bytes, h]
  · intro ε bus c e
    cases h : bus.readMultipleResult ReadOnlyRegisterAddress.OutXL.toByte 6 <;>
      simp [Lis3dh.get_accel_vector, Lis3dh.read_accel_bytes, h]
  · intro ε bus a e
    cases h : bus.readResult a.byte_address <;> simp [Lis3dh.read_register, h]
  · intro ε bus a len e
    cases h : bus.readMultipleResult a.byte_address len <;>
      simp [Lis3dh.read_multiple_registers, h]
  · intro ε bus a v e
    cases h : bus.writeResult a.toByte v <;> simp [Lis3dh.write_register, h]
  · intro ε bus a vs e
    cases h : bus.writeMultipleResult a.toByte vs <;>
      simp [Lis3dh.write_multiple_registers, h]
  · intro ε bus c e h1
    simp [Lis3dh.new, h1]

/-- Witness for claim C9's immediate-stop component on the all-failing
transport: after the first write fails, no second transaction is issued. -/
theorem claim9_witness :
    failingBus.writeMultipleResult 0x1E [0x10, 0x00, 0x57] = .error () ∧
    (Lis3dh.new failingBus exampleConfig).1 =
      [.writeMultiple 0x1E [0x10, 0x00, 0x57]] :=
  ⟨rfl,
    claim9_error_propagation.2.2.2.2.2.2.2.2.2.2 Unit failingBus exampleConfig
      () rfl⟩

/-- Claim C10: every register address lies between 0x07 and 0x3F, so it fits
in six bits; OR-ing any operation code (a multiple of 0x40) with an address
below 64 preserves both components exactly, and `byte_address` returns the
wrapped address's numeric value unchanged. -/
theorem claim10_register_addresses_fit_six_bits :
    (∀ r : ReadWriteRegisterAddress, 0x07 ≤ r.toByte ∧ r.toByte ≤ 0x3F) ∧
    (∀ r : ReadOnlyRegisterAddress, 0x07 ≤ r.toByte ∧ r.toByte ≤ 0x3F) ∧
    (∀ (op : Lis3dhOperation) (a : Nat), a < 64 →
      (op.raw ||| a) / 64 = op.raw / 64 ∧ (op.raw ||| a) % 64 = a) ∧
    (∀ r : ReadOnlyRegisterAddress,
      (RegisterAddress.ReadOnly r).byte_address = r.toByte) ∧
    (∀ r : ReadWriteRegisterAddress,
      (RegisterAddress.ReadWrite r).byte_address = r.toByte) := by
  refine ⟨by decide, by decide, by decide, fun r => rfl, fun r => rfl⟩

/-- Witness for claim C10's OR-preservation component at the WHO_AM_I
address under a single-read. -/
theorem claim10_witness :
    (0x0F : Nat) < 64 ∧
    (Lis3dhOperation.SingleRead.raw ||| 0x0F) / 64 =
      Lis3dhOperation.SingleRead.raw / 64 ∧
    (Lis3dhOperation.SingleRead.raw ||| 0x0F) % 64 = 0x0F :=
  ⟨by decide,
    claim10_register_addresses_fit_six_bits.2.2.1 .SingleRead 0x0F (by decide)⟩

end Lis3dhDriver
